import Mathlib

/-!
Verification of the natural-language specification of the JUCE OpenGL helper
header `src/modules/juce_opengl/opengl/juce_OpenGLHelpers.h`.

The repository ships only this declarations-only header: the bodies of
`OpenGLHelpers`, `TriangulatedPath` and `OpenGLTextureFromImage` live in a
compilation unit that is not part of the repository snapshot.  Everything
below that goes beyond the declared signatures is therefore a model built
from the header's own documentation comments and from the specification
text, and each such definition carries a doc comment saying so.
-/

set_option maxHeartbeats 1000000
set_option linter.unusedVariables false

/-! ## Host-toolkit value types

The header consumes opaque JUCE value types (Colour, AffineTransform,
Rectangle, Path, EdgeTable, Image).  They are modelled as plain records of
rational components, which is all the helper signatures need. -/

/-- Modelled from the spec: a JUCE `Colour`, an RGBA quadruple.  The real
type stores 8-bit channels convertible to floats; rational components
suffice for the helper signatures. -/
structure Colour where
  r : ℚ
  g : ℚ
  b : ℚ
  a : ℚ
  deriving DecidableEq, Repr

/-- Modelled from the spec: a JUCE `AffineTransform`, a 2x3 matrix
(mat00 mat01 mat02 / mat10 mat11 mat12). -/
structure AffineTransform where
  mat00 : ℚ
  mat01 : ℚ
  mat02 : ℚ
  mat10 : ℚ
  mat11 : ℚ
  mat12 : ℚ
  deriving DecidableEq, Repr

/-- Modelled from the spec: a JUCE `Rectangle int`. -/
structure RectangleInt where
  x : Int
  y : Int
  w : Int
  h : Int
  deriving DecidableEq, Repr

/-- Modelled from the spec: an edge table is "a scanline-based
rasterized-coverage representation"; modelled as a list of scanline spans
(y, xStart, xEnd, coverage). -/
structure EdgeTable where
  spans : List (Int × Int × Int × ℚ)
  deriving DecidableEq, Repr

/-- Modelled from the spec: a JUCE `Image`.  The only property the header
uses is whether the image is backed by an OpenGL framebuffer (and if so
which one), plus its pixel size. -/
structure Image where
  glFrameBuffer : Option Nat
  width : Int
  height : Int
  deriving DecidableEq, Repr

/-! ## The observable OpenGL surface

The helpers are, per the spec, "a direct, thin pass-through to OpenGL
state-setting and draw calls".  Their observable behaviour is modelled as
the list of OpenGL calls they issue. -/

/-- Modelled from the spec: the individual OpenGL calls the helper
operations are described as passing through to. -/
inductive GLCall where
  | glGetError
  | glClearColor (r g b a : ℚ)
  | glClear (mask : Nat)
  | glColor4f (r g b a : ℚ)
  | glViewport (x y w h : Int)
  | glMatrixMode (mode : Nat)
  | glLoadIdentity
  | glOrtho (l r b t zNear zFar : ℚ)
  | glFrustum (l r b t zNear zFar : ℝ)
  | glMultMatrix (m : AffineTransform)
  | glScissor (x y w h : Int)
  | glEnable (cap : Nat)
  | glVertex2f (x y : ℚ)
  | glVertex3f (x y z : ℚ)
  | glBindTexture (target : Nat) (id : Nat)
  | glDrawTriangleStripArrays (numVertices : Int)
  | glDrawSpan (y xStart xEnd : Int) (coverage : ℚ)
  | glBegin (mode : Nat)
  | glEnd

/-- GL_COLOR_BUFFER_BIT, the buffer mask named by `clear`. -/
def GL_COLOR_BUFFER_BIT : Nat := 0x4000

/-- GL_DEPTH_BUFFER_BIT. -/
def GL_DEPTH_BUFFER_BIT : Nat := 0x100

/-- GL_PROJECTION matrix-mode selector. -/
def GL_PROJECTION : Nat := 0x1701

/-- GL_MODELVIEW matrix-mode selector. -/
def GL_MODELVIEW : Nat := 0x1700

/-- GL_SCISSOR_TEST capability selector. -/
def GL_SCISSOR_TEST : Nat := 0xC11

/-- GL_TEXTURE_2D target selector. -/
def GL_TEXTURE_2D : Nat := 0xDE1

/-- GL_QUADS primitive mode. -/
def GL_QUADS : Nat := 0x7

namespace OpenGLHelpers

/-- Modelled from the spec: `OpenGLHelpers::clear` clears the current
context using the given colour - a clear-colour set followed by a buffer
clear. -/
def clear (colour : Colour) : List GLCall :=
  [GLCall.glClearColor colour.r colour.g colour.b colour.a,
   GLCall.glClear (GL_COLOR_BUFFER_BIT ||| GL_DEPTH_BUFFER_BIT)]

/-- Modelled from the spec: `OpenGLHelpers::setColour` sets the current
colour from a JUCE colour. -/
def setColour (colour : Colour) : List GLCall :=
  [GLCall.glColor4f colour.r colour.g colour.b colour.a]

/-- Modelled from the spec: `OpenGLHelpers::prepareFor2D` gives the
context an orthogonal rendering mode for 2D drawing into the given size. -/
def prepareFor2D (width height : Int) : List GLCall :=
  [GLCall.glViewport 0 0 width height,
   GLCall.glMatrixMode GL_PROJECTION,
   GLCall.glLoadIdentity,
   GLCall.glOrtho 0 width 0 height 0 1,
   GLCall.glMatrixMode GL_MODELVIEW]

/-- Modelled from the spec: `OpenGLHelpers::applyTransform` multiplies
the current matrix by the given affine transform. -/
def applyTransform (t : AffineTransform) : List GLCall :=
  [GLCall.glMultMatrix t]

/-- Modelled from the spec: `OpenGLHelpers::enableScissorTest` enables
scissoring to the given clip rectangle. -/
def enableScissorTest (clip : RectangleInt) : List GLCall :=
  [GLCall.glEnable GL_SCISSOR_TEST,
   GLCall.glScissor clip.x clip.y clip.w clip.h]

/-- Modelled from the spec: `OpenGLHelpers::drawQuad2D` draws a 2D quad
with the specified corner points in the specified colour. -/
def drawQuad2D (x1 y1 x2 y2 x3 y3 x4 y4 : ℚ) (colour : Colour) : List GLCall :=
  setColour colour ++
  [GLCall.glBegin GL_QUADS,
   GLCall.glVertex2f x1 y1, GLCall.glVertex2f x2 y2,
   GLCall.glVertex2f x3 y3, GLCall.glVertex2f x4 y4,
   GLCall.glEnd]

/-- Modelled from the spec: `OpenGLHelpers::drawQuad3D` draws a 3D quad
with the specified corner points in the specified colour. -/
def drawQuad3D (x1 y1 z1 x2 y2 z2 x3 y3 z3 x4 y4 z4 : ℚ) (colour : Colour) : List GLCall :=
  setColour colour ++
  [GLCall.glBegin GL_QUADS,
   GLCall.glVertex3f x1 y1 z1, GLCall.glVertex3f x2 y2 z2,
   GLCall.glVertex3f x3 y3 z3, GLCall.glVertex3f x4 y4 z4,
   GLCall.glEnd]

/-- Modelled from the spec: `OpenGLHelpers::fillEdgeTable` renders an
edge table into the current context, one span at a time. -/
def fillEdgeTable (edgeTable : EdgeTable) : List GLCall :=
  edgeTable.spans.map fun s => GLCall.glDrawSpan s.1 s.2.1 s.2.2.1 s.2.2.2

/-- Modelled from the spec: `drawTriangleStrip` issues one array-based
triangle-strip draw over the supplied vertices. -/
def drawTriangleStrip (vertices textureCoords : List (ℚ × ℚ)) (numVertices : Int) :
    List GLCall :=
  [GLCall.glDrawTriangleStripArrays numVertices]

/-- Modelled from the spec: the textured `drawTriangleStrip` overload
binds the texture first, then draws. -/
def drawTriangleStripTextured (vertices textureCoords : List (ℚ × ℚ))
    (numVertices : Int) (textureID : Nat) : List GLCall :=
  GLCall.glBindTexture GL_TEXTURE_2D textureID ::
    drawTriangleStrip vertices textureCoords numVertices

/-- Modelled from the spec: `drawTextureQuad` binds the texture and draws
one screen-aligned quad covering the given rectangle. -/
def drawTextureQuad (textureID : Nat) (x y w h : Int) : List GLCall :=
  [GLCall.glBindTexture GL_TEXTURE_2D textureID,
   GLCall.glBegin GL_QUADS,
   GLCall.glVertex2f x y, GLCall.glVertex2f (x + w) y,
   GLCall.glVertex2f (x + w) (y + h), GLCall.glVertex2f x (y + h),
   GLCall.glEnd]

/-- Modelled from the spec: `fillRectWithTexture` draws the rectangle as
a textured quad at the given alpha. -/
def fillRectWithTexture (rect : RectangleInt) (textureID : Nat) (alpha : ℚ) :
    List GLCall :=
  GLCall.glColor4f 1 1 1 alpha ::
    drawTextureQuad textureID rect.x rect.y rect.w rect.h

/-- Modelled from the spec: `fillRect` draws one quad covering the
rectangle in the current colour. -/
def fillRect (rect : RectangleInt) : List GLCall :=
  [GLCall.glBegin GL_QUADS,
   GLCall.glVertex2f rect.x rect.y,
   GLCall.glVertex2f (rect.x + rect.w) rect.y,
   GLCall.glVertex2f (rect.x + rect.w) (rect.y + rect.h),
   GLCall.glVertex2f rect.x (rect.y + rect.h),
   GLCall.glEnd]

/-- Modelled from the spec: `fillRectWithColour` sets the colour and then
fills the rectangle. -/
def fillRectWithColour (rect : RectangleInt) (colour : Colour) : List GLCall :=
  setColour colour ++ fillRect rect

end OpenGLHelpers

/-! ## The projection set up by setPerspective

The header states that `setPerspective` "does the same job as
gluPerspective()".  Its body is absent from the repository, so it is
modelled as the standard frustum-based implementation, and the claim that
it applies the very same projection as `gluPerspective` becomes the
theorem that the frustum it requests denotes the matrix `gluPerspective`
is documented (in the GLU reference pages) to load. -/

open Real in
/-- The 4x4 projection matrix loaded by `glFrustum l r b t zNear zFar`,
as documented in the OpenGL reference pages. -/
noncomputable def frustumMatrix (l r b t zNear zFar : ℝ) : Matrix (Fin 4) (Fin 4) ℝ :=
  !![2 * zNear / (r - l), 0, (r + l) / (r - l), 0;
     0, 2 * zNear / (t - b), (t + b) / (t - b), 0;
     0, 0, -(zFar + zNear) / (zFar - zNear), -(2 * zFar * zNear) / (zFar - zNear);
     0, 0, -1, 0]

open Real in
/-- The 4x4 projection matrix loaded by `gluPerspective fovy aspect zNear
zFar`, as documented in the GLU reference pages: with
f = cotangent (fovy / 2) (fovy in degrees), the matrix
diag (f / aspect, f, (zFar + zNear) / (zNear - zFar), 0) with the two
off-diagonal perspective terms. -/
noncomputable def gluPerspectiveMatrix (fovy aspect zNear zFar : ℝ) :
    Matrix (Fin 4) (Fin 4) ℝ :=
  let f : ℝ := 1 / Real.tan (fovy * Real.pi / 360)
  !![f / aspect, 0, 0, 0;
     0, f, 0, 0;
     0, 0, (zFar + zNear) / (zNear - zFar), 2 * zFar * zNear / (zNear - zFar);
     0, 0, -1, 0]

namespace OpenGLHelpers

/-- Modelled from the spec: the body of `OpenGLHelpers::setPerspective`
is absent from the repository; per its documentation it "does the same
job as gluPerspective()", and it is modelled as the classic frustum-based
implementation of that job: the vertical half-extent at the near plane is
zNear * tan (fovy * pi / 360) and the frustum spans it, scaled by the
aspect ratio horizontally. -/
noncomputable def setPerspective (fovy aspect zNear zFar : ℝ) : List GLCall :=
  let ymax : ℝ := zNear * Real.tan (fovy * Real.pi / 360)
  [GLCall.glMatrixMode GL_PROJECTION,
   GLCall.glLoadIdentity,
   GLCall.glFrustum (-ymax * aspect) (ymax * aspect) (-ymax) ymax zNear zFar,
   GLCall.glMatrixMode GL_MODELVIEW]

/-- The projection matrix denoted by the frustum that `setPerspective`
requests. -/
noncomputable def setPerspectiveMatrix (fovy aspect zNear zFar : ℝ) :
    Matrix (Fin 4) (Fin 4) ℝ :=
  let ymax : ℝ := zNear * Real.tan (fovy * Real.pi / 360)
  frustumMatrix (-ymax * aspect) (ymax * aspect) (-ymax) ymax zNear zFar

end OpenGLHelpers

/-- The frustum that `setPerspective` requests denotes exactly the matrix
that `gluPerspective` is documented to load, for any non-degenerate
arguments. -/
theorem setPerspectiveMatrix_eq_gluPerspectiveMatrix (fovy aspect zNear zFar : ℝ)
    (hn : zNear ≠ 0) (ht : Real.tan (fovy * Real.pi / 360) ≠ 0)
    (ha : aspect ≠ 0) (hf : zFar ≠ zNear) :
    OpenGLHelpers.setPerspectiveMatrix fovy aspect zNear zFar
      = gluPerspectiveMatrix fovy aspect zNear zFar := by
  have h1 : zFar - zNear ≠ 0 := sub_ne_zero.mpr hf
  have h2 : zNear - zFar ≠ 0 := sub_ne_zero.mpr (Ne.symm hf)
  unfold OpenGLHelpers.setPerspectiveMatrix gluPerspectiveMatrix frustumMatrix
  ext i j
  fin_cases i <;> fin_cases j <;>
    simp only [Matrix.cons_val_zero, Matrix.cons_val_one, Matrix.head_cons,
      Matrix.cons_val_fin_one, Matrix.of_apply, Matrix.cons_val_succ,
      Matrix.head_fin_const] <;>
    field_simp <;> ring

/-! ## The current OpenGL context and the helper runner

For the claims about error handling, statelessness and thread
confinement, the observable OpenGL context is modelled as a record: an
error flag, the extension environment, and the list of calls issued so
far. -/

/-- GL_NO_ERROR: the no-error value of the GL error flag. -/
def GL_NO_ERROR : Nat := 0

/-- Modelled from the spec: the state of one OpenGL context - its
current error flag, its extension environment, and the calls issued into
it so far. -/
structure GLContext where
  errorFlag : Nat
  extensions : List String
  extensionFunctions : String → Option Nat
  issued : List GLCall

/-- Append a batch of issued calls to a context. -/
def GLContext.issue (c : GLContext) (calls : List GLCall) : GLContext :=
  { c with issued := c.issued ++ calls }

namespace OpenGLHelpers

/-- Modelled from the spec: `OpenGLHelpers::resetErrorState` "Clears the
GL error state" - it reads the error flag until it is clear, leaving the
flag at GL_NO_ERROR. -/
def resetErrorState (c : GLContext) : GLContext :=
  { c with errorFlag := GL_NO_ERROR, issued := c.issued ++ [GLCall.glGetError] }

/-- Modelled from the spec: `OpenGLHelpers::isContextActive` "Returns
true if the current thread has an active OpenGL context": it is a pure
query of whether the calling thread currently has a context. -/
def isContextActive (current : Option GLContext) : Bool :=
  current.isSome

/-- Modelled from the spec: the system-wide association of threads to
their active OpenGL contexts, from which `isContextActive` reads only
the calling thread's slot. -/
def currentContextOf (activeContexts : Nat → Option GLContext) (thread : Nat) :
    Option GLContext :=
  activeContexts thread

/-- Modelled from the spec: `OpenGLHelpers::isExtensionSupported` checks
the current context's extension list for the named extension. -/
def isExtensionSupported (c : GLContext) (extensionName : String) : Bool :=
  c.extensions.contains extensionName

/-- Modelled from the spec: `OpenGLHelpers::getExtensionFunction` looks
up the address of a named GL extension function in the current context. -/
def getExtensionFunction (c : GLContext) (functionName : String) : Option Nat :=
  c.extensionFunctions functionName

end OpenGLHelpers

/-- One invocation of a public static member of `OpenGLHelpers`, with its
explicit arguments, exactly as declared in the header. -/
inductive HelperCall where
  | resetErrorState
  | isContextActive
  | clear (colour : Colour)
  | setColour (colour : Colour)
  | prepareFor2D (width height : Int)
  | setPerspective (fovy aspect zNear zFar : ℝ)
  | applyTransform (t : AffineTransform)
  | enableScissorTest (clip : RectangleInt)
  | drawQuad2D (x1 y1 x2 y2 x3 y3 x4 y4 : ℚ) (colour : Colour)
  | drawQuad3D (x1 y1 z1 x2 y2 z2 x3 y3 z3 x4 y4 z4 : ℚ) (colour : Colour)
  | drawTriangleStrip (vertices textureCoords : List (ℚ × ℚ)) (numVertices : Int)
  | drawTriangleStripTextured (vertices textureCoords : List (ℚ × ℚ))
      (numVertices : Int) (textureID : Nat)
  | drawTextureQuad (textureID : Nat) (x y w h : Int)
  | fillRectWithTexture (rect : RectangleInt) (textureID : Nat) (alpha : ℚ)
  | fillRect (rect : RectangleInt)
  | fillRectWithColour (rect : RectangleInt) (colour : Colour)
  | fillEdgeTable (edgeTable : EdgeTable)
  | isExtensionSupported (extensionName : String)
  | getExtensionFunction (functionName : String)

/-- The value a helper returns to its caller.  The header declares only
three return shapes: void, bool (the two queries) and a raw function
pointer; none of them is an error-code type. -/
inductive HelperResult where
  | unitResult
  | boolResult (b : Bool)
  | ptrResult (p : Option Nat)

/-- The shapes a returned value could have taken, including the one the
helpers never use: a propagated OpenGL error code. -/
inductive ResultShape where
  | unitShape
  | boolShape
  | ptrShape
  | glErrorCode (e : Nat)
  deriving DecidableEq, Repr

/-- The shape of an actual helper result. -/
def HelperResult.shape : HelperResult → ResultShape
  | .unitResult => .unitShape
  | .boolResult _ => .boolShape
  | .ptrResult _ => .ptrShape

/-- Modelled from the spec: the effect of one helper invocation on the
current context, and the value it returns.  The helpers are static and
hold no data, so the whole effect is a function of the call and the
current context alone. -/
noncomputable def runHelper (call : HelperCall) (c : GLContext) :
    GLContext × HelperResult :=
  match call with
  | .resetErrorState => (OpenGLHelpers.resetErrorState c, .unitResult)
  | .isContextActive => (c, .boolResult (OpenGLHelpers.isContextActive (some c)))
  | .clear colour => (c.issue (OpenGLHelpers.clear colour), .unitResult)
  | .setColour colour => (c.issue (OpenGLHelpers.setColour colour), .unitResult)
  | .prepareFor2D w h => (c.issue (OpenGLHelpers.prepareFor2D w h), .unitResult)
  | .setPerspective fovy aspect zNear zFar =>
      (c.issue (OpenGLHelpers.setPerspective fovy aspect zNear zFar), .unitResult)
  | .applyTransform t => (c.issue (OpenGLHelpers.applyTransform t), .unitResult)
  | .enableScissorTest clip =>
      (c.issue (OpenGLHelpers.enableScissorTest clip), .unitResult)
  | .drawQuad2D x1 y1 x2 y2 x3 y3 x4 y4 colour =>
      (c.issue (OpenGLHelpers.drawQuad2D x1 y1 x2 y2 x3 y3 x4 y4 colour), .unitResult)
  | .drawQuad3D x1 y1 z1 x2 y2 z2 x3 y3 z3 x4 y4 z4 colour =>
      (c.issue (OpenGLHelpers.drawQuad3D x1 y1 z1 x2 y2 z2 x3 y3 z3 x4 y4 z4 colour),
       .unitResult)
  | .drawTriangleStrip v tc n =>
      (c.issue (OpenGLHelpers.drawTriangleStrip v tc n), .unitResult)
  | .drawTriangleStripTextured v tc n id =>
      (c.issue (OpenGLHelpers.drawTriangleStripTextured v tc n id), .unitResult)
  | .drawTextureQuad id x y w h =>
      (c.issue (OpenGLHelpers.drawTextureQuad id x y w h), .unitResult)
  | .fillRectWithTexture rect id alpha =>
      (c.issue (OpenGLHelpers.fillRectWithTexture rect id alpha), .unitResult)
  | .fillRect rect => (c.issue (OpenGLHelpers.fillRect rect), .unitResult)
  | .fillRectWithColour rect colour =>
      (c.issue (OpenGLHelpers.fillRectWithColour rect colour), .unitResult)
  | .fillEdgeTable et => (c.issue (OpenGLHelpers.fillEdgeTable et), .unitResult)
  | .isExtensionSupported name =>
      (c, .boolResult (OpenGLHelpers.isExtensionSupported c name))
  | .getExtensionFunction name =>
      (c, .ptrResult (OpenGLHelpers.getExtensionFunction c name))

/-! ## TriangulatedPath: the triangle-block arena

The header declares a private `OwnedArray TriangleBlock blocks` together
with a raw `TriangleBlock* currentBlock` cursor, filled through
`startNewBlock`, `addTriangle` and `addTrapezoid`.  Following the spec's
design note, the arena is modelled index-addressed: a list of owned
blocks plus an optional current index. -/

/-- One triangle, six coordinates, exactly the argument list of
`TriangulatedPath::addTriangle`. -/
structure Triangle where
  x1 : ℚ
  y1 : ℚ
  x2 : ℚ
  y2 : ℚ
  x3 : ℚ
  y3 : ℚ
  deriving DecidableEq, Repr

/-- Modelled from the spec: the fixed number of triangle slots allocated
per block of the arena. -/
def trianglesPerBlock : Nat := 256

/-- Modelled from the spec: one owned `TriangleBlock` - the triangles
stored in it and the number of slots allocated for it. -/
structure TriangleBlock where
  data : List Triangle
  capacity : Nat
  deriving DecidableEq, Repr

/-- Modelled from the spec: the state of a `TriangulatedPath` - the
array of owned triangle blocks and the non-owning current-block cursor,
held as an index into that same array (none before any block has been
started). -/
structure TriangulatedPath where
  blocks : List TriangleBlock
  currentBlock : Option Nat
  deriving DecidableEq, Repr

/-- The state of a `TriangulatedPath` before any block has been
started. -/
def TriangulatedPath.empty : TriangulatedPath :=
  { blocks := [], currentBlock := none }

/-- Modelled from the spec: `TriangulatedPath::startNewBlock` appends a
fresh empty block to the arena and moves the cursor onto it. -/
def TriangulatedPath.startNewBlock (s : TriangulatedPath) : TriangulatedPath :=
  { blocks := s.blocks ++ [⟨[], trianglesPerBlock⟩],
    currentBlock := some s.blocks.length }

/-- Store one triangle at the end of the arena: into the final block if
it still has a free slot, otherwise into a freshly started block. -/
def pushTriangle : List TriangleBlock → Triangle → List TriangleBlock
  | [], tr => [⟨[tr], trianglesPerBlock⟩]
  | b :: rest, tr =>
    match rest with
    | [] =>
      if b.data.length < b.capacity then [⟨b.data ++ [tr], b.capacity⟩]
      else [b, ⟨[tr], trianglesPerBlock⟩]
    | _ :: _ => b :: pushTriangle rest tr

/-- Modelled from the spec: `TriangulatedPath::addTriangle` stores one
triangle in the current block, starting a new block when the current one
is full, and keeps the cursor on the block that received it. -/
def TriangulatedPath.addTriangle (s : TriangulatedPath) (tr : Triangle) :
    TriangulatedPath :=
  let bs := pushTriangle s.blocks tr
  { blocks := bs, currentBlock := some (bs.length - 1) }

/-- One trapezoid, exactly the argument list of
`TriangulatedPath::addTrapezoid`: two horizontal edges, the top one at
y1 spanning x1..x2 and the bottom one at y2 spanning x3..x4. -/
structure Trapezoid where
  y1 : ℚ
  y2 : ℚ
  x1 : ℚ
  x2 : ℚ
  x3 : ℚ
  x4 : ℚ
  deriving DecidableEq, Repr

/-- The first of the two triangles a trapezoid decomposes into: the top
edge together with the bottom-left corner. -/
def Trapezoid.tri1 (t : Trapezoid) : Triangle :=
  ⟨t.x1, t.y1, t.x2, t.y1, t.x3, t.y2⟩

/-- The second of the two triangles a trapezoid decomposes into: the
top-right corner together with the bottom edge. -/
def Trapezoid.tri2 (t : Trapezoid) : Triangle :=
  ⟨t.x2, t.y1, t.x3, t.y2, t.x4, t.y2⟩

/-- Modelled from the spec: `TriangulatedPath::addTrapezoid` stores the
trapezoid as its two triangles, since the arena holds only triangles. -/
def TriangulatedPath.addTrapezoid (s : TriangulatedPath) (t : Trapezoid) :
    TriangulatedPath :=
  (s.addTriangle t.tri1).addTriangle t.tri2

/-- Trim one block's allocation down to the triangles it actually
stores. -/
def TriangleBlock.trim (b : TriangleBlock) : TriangleBlock :=
  ⟨b.data, b.data.length⟩

/-- Modelled from the spec: `TriangulatedPath::optimiseStorage` "Reduces
the memory footprint of this object to the minimum possible" - every
block's allocation is trimmed to what it stores. -/
def TriangulatedPath.optimiseStorage (s : TriangulatedPath) : TriangulatedPath :=
  { blocks := s.blocks.map TriangleBlock.trim, currentBlock := s.currentBlock }

/-- All triangles stored in the arena, in storage order. -/
def TriangulatedPath.allTriangles (s : TriangulatedPath) : List Triangle :=
  (s.blocks.map TriangleBlock.data).flatten

/-- The number of triangle slots the arena has allocated - its memory
footprint in slots. -/
def TriangulatedPath.footprint (s : TriangulatedPath) : Nat :=
  (s.blocks.map TriangleBlock.capacity).sum

/-- The number of triangles the arena actually stores. -/
def TriangulatedPath.storedCount (s : TriangulatedPath) : Nat :=
  s.allTriangles.length

/-- One oversampling pass of `TriangulatedPath::draw`: a subpixel jitter
offset and the triangles rendered in that pass. -/
structure DrawPass where
  jitterX : ℚ
  jitterY : ℚ
  triangles : List Triangle
  deriving DecidableEq, Repr

/-- Modelled from the spec: `TriangulatedPath::draw` "Renders the path,
using a jittered oversampling method.  The oversampling level is the
square root of the number of times it should be oversampled" - one pass
per jitter offset on a level-by-level subpixel grid, each pass rendering
the stored triangles. -/
def TriangulatedPath.draw (s : TriangulatedPath) (oversamplingLevel : Nat) :
    List DrawPass :=
  (List.range oversamplingLevel).flatMap fun (i : Nat) =>
    (List.range oversamplingLevel).map fun (j : Nat) =>
      { jitterX := (i : ℚ) / (oversamplingLevel : ℚ),
        jitterY := (j : ℚ) / (oversamplingLevel : ℚ),
        triangles := s.allTriangles }

/-- `TriangulatedPath::draw` as a const member call: it yields the
render passes and hands the object back untouched. -/
def TriangulatedPath.drawMethod (s : TriangulatedPath) (oversamplingLevel : Nat) :
    List DrawPass × TriangulatedPath :=
  (s.draw oversamplingLevel, s)

/-- The operations that can touch a `TriangulatedPath` after it starts
empty: the private builders used during construction and the public
storage optimiser.  `draw` is const and changes nothing. -/
inductive PathOp where
  | startNewBlock
  | addTriangle (tr : Triangle)
  | addTrapezoid (t : Trapezoid)
  | optimiseStorage
  deriving DecidableEq, Repr

/-- Apply one operation to the arena state. -/
def TriangulatedPath.applyOp (s : TriangulatedPath) : PathOp → TriangulatedPath
  | .startNewBlock => s.startNewBlock
  | .addTriangle tr => s.addTriangle tr
  | .addTrapezoid t => s.addTrapezoid t
  | .optimiseStorage => s.optimiseStorage

/-- The state reached from the empty arena by a sequence of
operations: every reachable state of a `TriangulatedPath` arises this
way. -/
def TriangulatedPath.runOps (ops : List PathOp) : TriangulatedPath :=
  ops.foldl TriangulatedPath.applyOp TriangulatedPath.empty

/-- The cursor invariant: before any block has been started the cursor
points at no block, and otherwise it is a valid index into the owned
array. -/
def TriangulatedPath.cursorOK (s : TriangulatedPath) : Bool :=
  match s.currentBlock with
  | none => s.blocks.isEmpty
  | some i => decide (i < s.blocks.length)

/-- `pushTriangle` never leaves the arena without blocks. -/
theorem pushTriangle_length_pos (bs : List TriangleBlock) (tr : Triangle) :
    0 < (pushTriangle bs tr).length := by
  induction bs with
  | nil => simp [pushTriangle]
  | cons b rest ih =>
    cases rest with
    | nil =>
      by_cases h : b.data.length < b.capacity <;> simp [pushTriangle, h]
    | cons b2 rest2 => simp [pushTriangle]

/-- Every operation preserves the cursor invariant. -/
theorem applyOp_cursorOK (s : TriangulatedPath) (op : PathOp)
    (h : s.cursorOK = true) : (s.applyOp op).cursorOK = true := by
  cases op with
  | startNewBlock =>
    simp [TriangulatedPath.applyOp, TriangulatedPath.startNewBlock,
      TriangulatedPath.cursorOK]
  | addTriangle tr =>
    have hp := pushTriangle_length_pos s.blocks tr
    simp [TriangulatedPath.applyOp, TriangulatedPath.addTriangle,
      TriangulatedPath.cursorOK]
    omega
  | addTrapezoid t =>
    have hp := pushTriangle_length_pos (pushTriangle s.blocks t.tri1) t.tri2
    simp [TriangulatedPath.applyOp, TriangulatedPath.addTrapezoid,
      TriangulatedPath.addTriangle, TriangulatedPath.cursorOK]
    omega
  | optimiseStorage =>
    unfold TriangulatedPath.cursorOK at h ⊢
    cases hc : s.currentBlock with
    | none =>
      simp [TriangulatedPath.applyOp, TriangulatedPath.optimiseStorage, hc] at h ⊢
      simpa [List.isEmpty_iff] using h
    | some i =>
      simp [TriangulatedPath.applyOp, TriangulatedPath.optimiseStorage, hc] at h ⊢
      exact h

/-- The cursor invariant holds in every reachable state. -/
theorem runOps_cursorOK (ops : List PathOp) :
    (TriangulatedPath.runOps ops).cursorOK = true := by
  have key : ∀ (l : List PathOp) (s : TriangulatedPath), s.cursorOK = true →
      (l.foldl TriangulatedPath.applyOp s).cursorOK = true := by
    intro l
    induction l with
    | nil => intro s hs; simpa using hs
    | cons op rest ih =>
      intro s hs
      exact ih (s.applyOp op) (applyOp_cursorOK s op hs)
  exact key ops TriangulatedPath.empty (by simp [TriangulatedPath.empty,
    TriangulatedPath.cursorOK, List.isEmpty])

/-- Storing one triangle appends it to the stored sequence, wherever the
block boundaries fall. -/
theorem pushTriangle_data (bs : List TriangleBlock) (tr : Triangle) :
    ((pushTriangle bs tr).map TriangleBlock.data).flatten
      = (bs.map TriangleBlock.data).flatten ++ [tr] := by
  induction bs with
  | nil => simp [pushTriangle]
  | cons b rest ih =>
    cases rest with
    | nil =>
      by_cases h : b.data.length < b.capacity <;>
        simp [pushTriangle, h]
    | cons b2 rest2 =>
      have hstep : pushTriangle (b :: b2 :: rest2) tr
          = b :: pushTriangle (b2 :: rest2) tr := rfl
      rw [hstep]
      simp [ih]

/-- `addTriangle` appends exactly its triangle to the stored sequence. -/
theorem addTriangle_allTriangles (s : TriangulatedPath) (tr : Triangle) :
    (s.addTriangle tr).allTriangles = s.allTriangles ++ [tr] := by
  simp [TriangulatedPath.addTriangle, TriangulatedPath.allTriangles,
    pushTriangle_data]

/-- `addTrapezoid` appends exactly the trapezoid's two triangles to the
stored sequence. -/
theorem addTrapezoid_allTriangles (s : TriangulatedPath) (t : Trapezoid) :
    (s.addTrapezoid t).allTriangles = s.allTriangles ++ [t.tri1, t.tri2] := by
  simp [TriangulatedPath.addTrapezoid, addTriangle_allTriangles]

/-- Trimming the blocks does not change which triangles are stored. -/
theorem optimiseStorage_allTriangles (s : TriangulatedPath) :
    s.optimiseStorage.allTriangles = s.allTriangles := by
  simp only [TriangulatedPath.optimiseStorage, TriangulatedPath.allTriangles,
    List.map_map]
  rfl

/-- After `optimiseStorage` the footprint equals the number of stored
triangles. -/
theorem optimiseStorage_footprint (s : TriangulatedPath) :
    s.optimiseStorage.footprint = s.storedCount := by
  simp only [TriangulatedPath.optimiseStorage, TriangulatedPath.footprint,
    TriangulatedPath.storedCount, TriangulatedPath.allTriangles,
    List.length_flatten, List.map_map]
  rfl

/-- Well-formed storage: no block claims to store more triangles than it
has slots for. -/
def TriangulatedPath.storageWF (s : TriangulatedPath) : Prop :=
  ∀ b ∈ s.blocks, b.data.length ≤ b.capacity

/-- No well-formed arena stores a list of triangles in fewer slots than
the number of triangles: the trimmed footprint is the minimum possible. -/
theorem storedCount_le_footprint (s : TriangulatedPath) (h : s.storageWF) :
    s.storedCount ≤ s.footprint := by
  unfold TriangulatedPath.storedCount TriangulatedPath.allTriangles
    TriangulatedPath.footprint
  rw [List.length_flatten, List.map_map]
  exact List.sum_le_sum fun b hb => h b hb

/-- What `draw` renders is a function of the stored triangles only. -/
theorem draw_congr (s s' : TriangulatedPath)
    (h : s.allTriangles = s'.allTriangles) (n : Nat) : s.draw n = s'.draw n := by
  simp [TriangulatedPath.draw, h]

/-- `draw` performs one pass per point of a level-by-level jitter grid:
level n means n * n passes. -/
theorem draw_passCount (s : TriangulatedPath) (n : Nat) :
    (s.draw n).length = n * n := by
  unfold TriangulatedPath.draw
  rw [List.length_flatMap]
  have h : List.map
      (List.length ∘ fun (i : Nat) => List.map
        (fun (j : Nat) => DrawPass.mk ((i : ℚ) / (n : ℚ)) ((j : ℚ) / (n : ℚ))
          s.allTriangles)
        (List.range n))
      (List.range n) = List.replicate n n := by
    rw [List.eq_replicate_iff]
    constructor
    · simp
    · intro b hb
      simp at hb
      obtain ⟨a, _, rfl⟩ := hb
      simp
  rw [h, List.sum_replicate, smul_eq_mul]

/-! ## OpenGLTextureFromImage: the texture-from-image adapter

The header declares two private ScopedPointers, `texture` and
`frameBuffer`, a raw `textureID` and const dimensions, and documents the
constructor: "If the image is backed by an OpenGL framebuffer, it will
use that directly; otherwise, this object will create a temporary texture
or framebuffer and copy the image." -/

/-- Modelled from the spec: an `OpenGLTexture` - a GL texture id
together with the image content copied into it. -/
structure OpenGLTexture where
  id : Nat
  content : Image
  deriving DecidableEq, Repr

/-- Modelled from the spec: an `OpenGLFrameBuffer` - a GL framebuffer id
together with the image it presents. -/
structure OpenGLFrameBuffer where
  id : Nat
  content : Image
  deriving DecidableEq, Repr

/-- Modelled from the spec: the state of an `OpenGLTextureFromImage`
adapter - the exposed raw texture id and dimensions, and the two
ScopedPointer members of which exactly one owns a GPU resource. -/
structure OpenGLTextureFromImage where
  textureID : Nat
  width : Int
  height : Int
  texture : Option OpenGLTexture
  frameBuffer : Option OpenGLFrameBuffer
  deriving DecidableEq, Repr

/-- Modelled from the spec: the `OpenGLTextureFromImage` constructor.
If the image is backed by an OpenGL framebuffer that framebuffer is used
directly; otherwise a temporary texture is created with a fresh id and
the image copied into it. -/
def OpenGLTextureFromImage.make (image : Image) (freshID : Nat) :
    OpenGLTextureFromImage :=
  match image.glFrameBuffer with
  | some fbID =>
      { textureID := fbID, width := image.width, height := image.height,
        texture := none, frameBuffer := some ⟨fbID, image⟩ }
  | none =>
      { textureID := freshID, width := image.width, height := image.height,
        texture := some ⟨freshID, image⟩, frameBuffer := none }

/-! ## Unique ownership across object lifetimes

Both classes carry JUCE_DECLARE_NON_COPYABLE_WITH_LEAK_DETECTOR, which
deletes their copy constructor and copy assignment.  The lifecycle of
their owned resources is therefore modelled by an op language with
construction and destruction only: no operation can make a second live
object share an existing triangle-block arena or GPU resource. -/

/-- The two kinds of owned resource: a TriangulatedPath's triangle-block
arena and an OpenGLTextureFromImage's GPU resource. -/
inductive OwnedKind where
  | triangleArena
  | gpuResource
  deriving DecidableEq, Repr

/-- The registry of live owning objects: a fresh-id counter and one
entry (owner object id, kind, resource id) per live object. -/
structure Registry where
  nextID : Nat
  owned : List (Nat × OwnedKind × Nat)
  deriving DecidableEq, Repr

/-- Modelled from the spec: the only lifecycle operations the two
non-copyable classes expose - construction (which allocates a fresh
resource) and destruction (which releases the owner's resource).  The
deleted copy operations have no counterpart here. -/
inductive LifecycleOp where
  | constructTriangulatedPath
  | constructTextureFromImage (image : Image)
  | destroyObject (owner : Nat)
  deriving DecidableEq, Repr

/-- Apply one lifecycle operation to the registry. -/
def Registry.applyLifecycle (r : Registry) : LifecycleOp → Registry
  | .constructTriangulatedPath =>
      { nextID := r.nextID + 1,
        owned := r.owned ++ [(r.nextID, OwnedKind.triangleArena, r.nextID)] }
  | .constructTextureFromImage _ =>
      { nextID := r.nextID + 1,
        owned := r.owned ++ [(r.nextID, OwnedKind.gpuResource, r.nextID)] }
  | .destroyObject owner =>
      { nextID := r.nextID,
        owned := r.owned.filter fun e => e.1 ≠ owner }

/-- The empty registry. -/
def Registry.start : Registry :=
  { nextID := 0, owned := [] }

/-- The registry reached by a sequence of constructions and
destructions. -/
def Registry.runLifecycle (ops : List LifecycleOp) : Registry :=
  ops.foldl Registry.applyLifecycle Registry.start

/-- Unique ownership: no resource id is owned by two live entries. -/
def Registry.uniqueOwnership (r : Registry) : Prop :=
  (r.owned.map fun e => e.2.2).Nodup

/-- The inductive invariant: resource ids are pairwise distinct and all
below the fresh-id counter. -/
def Registry.invariant (r : Registry) : Prop :=
  (r.owned.map fun e => e.2.2).Nodup ∧ ∀ e ∈ r.owned, e.2.2 < r.nextID

/-- Every lifecycle operation preserves the registry invariant. -/
theorem applyLifecycle_invariant (r : Registry) (op : LifecycleOp)
    (h : r.invariant) : (r.applyLifecycle op).invariant := by
  obtain ⟨hnd, hlt⟩ := h
  cases op with
  | constructTriangulatedPath =>
    have hfresh : r.nextID ∉ r.owned.map fun e => e.2.2 := by
      intro hmem
      obtain ⟨e, he, heq⟩ := List.mem_map.mp hmem
      exact absurd heq (Nat.ne_of_lt (hlt e he))
    refine ⟨?_, ?_⟩
    · simp only [Registry.applyLifecycle, List.map_append]
      refine List.Nodup.append hnd (List.nodup_singleton _) ?_
      intro a ha hb
      simp at hb
      subst hb
      exact hfresh ha
    · intro e he
      simp [Registry.applyLifecycle] at he ⊢
      rcases he with he | he
      · exact Nat.lt_succ_of_lt (hlt e he)
      · simp [he]
  | constructTextureFromImage image =>
    have hfresh : r.nextID ∉ r.owned.map fun e => e.2.2 := by
      intro hmem
      obtain ⟨e, he, heq⟩ := List.mem_map.mp hmem
      exact absurd heq (Nat.ne_of_lt (hlt e he))
    refine ⟨?_, ?_⟩
    · simp only [Registry.applyLifecycle, List.map_append]
      refine List.Nodup.append hnd (List.nodup_singleton _) ?_
      intro a ha hb
      simp at hb
      subst hb
      exact hfresh ha
    · intro e he
      simp [Registry.applyLifecycle] at he ⊢
      rcases he with he | he
      · exact Nat.lt_succ_of_lt (hlt e he)
      · simp [he]
  | destroyObject owner =>
    refine ⟨?_, ?_⟩
    · exact List.Nodup.sublist
        (List.Sublist.map _ (List.filter_sublist r.owned)) hnd
    · intro e he
      simp [Registry.applyLifecycle] at he
      exact hlt e he.1

/-- Every reachable registry satisfies the invariant. -/
theorem runLifecycle_invariant (ops : List LifecycleOp) :
    (Registry.runLifecycle ops).invariant := by
  have key : ∀ (l : List LifecycleOp) (r : Registry), r.invariant →
      (l.foldl Registry.applyLifecycle r).invariant := by
    intro l
    induction l with
    | nil => intro r hr; simpa using hr
    | cons op rest ih =>
      intro r hr
      exact ih (r.applyLifecycle op) (applyLifecycle_invariant r op hr)
  exact key ops Registry.start ⟨by simp [Registry.start], by simp [Registry.start]⟩

/-! ## The geometry of the triangulation

`addTrapezoid` hands the arena a trapezoid with two horizontal edges;
the arena stores it as the two triangles `tri1` and `tri2`.  The next
theorems establish that this split is exact: the two triangles cover the
trapezoid with no gap and no excess, so a trapezoidal decomposition of a
fill region turns into a triangulation of exactly that region. -/

/-- Whether a trapezoid is geometrically well-formed: its top edge is
strictly above its bottom edge and neither edge is reversed. -/
def Trapezoid.WF (t : Trapezoid) : Prop :=
  t.y1 < t.y2 ∧ t.x1 ≤ t.x2 ∧ t.x3 ≤ t.x4

/-- The plane region a well-formed trapezoid fills: the scanlines from
y1 to y2, each spanning the two edges interpolated at that height (in
cross-multiplied form, the interpolation scaled by the positive height
y2 - y1). -/
def Trapezoid.region (t : Trapezoid) : Set (ℚ × ℚ) :=
  { p | t.y1 ≤ p.2 ∧ p.2 ≤ t.y2 ∧
        t.x1 * (t.y2 - p.2) + t.x3 * (p.2 - t.y1) ≤ p.1 * (t.y2 - t.y1) ∧
        p.1 * (t.y2 - t.y1) ≤ t.x2 * (t.y2 - p.2) + t.x4 * (p.2 - t.y1) }

/-- The plane region a triangle fills: the convex combinations of its
three vertices. -/
def Triangle.region (tr : Triangle) : Set (ℚ × ℚ) :=
  { p | ∃ a b c : ℚ, 0 ≤ a ∧ 0 ≤ b ∧ 0 ≤ c ∧ a + b + c = 1 ∧
        p.1 = a * tr.x1 + b * tr.x2 + c * tr.x3 ∧
        p.2 = a * tr.y1 + b * tr.y2 + c * tr.y3 }

/-- The trapezoid-to-triangles split is exact: a well-formed trapezoid
is covered by its two triangles with no gap and no excess. -/
theorem trapezoid_region_eq_union (t : Trapezoid) (h : t.WF) :
    t.region = t.tri1.region ∪ t.tri2.region := by
  obtain ⟨hy, h12, h34⟩ := h
  have hD : (0:ℚ) < t.y2 - t.y1 := sub_pos.mpr hy
  have hDne : t.y2 - t.y1 ≠ 0 := ne_of_gt hD
  ext ⟨x, y⟩
  simp only [Trapezoid.region, Triangle.region, Trapezoid.tri1, Trapezoid.tri2,
    Set.mem_setOf_eq, Set.mem_union]
  constructor
  · rintro ⟨hy1, hy2, hlo, hhi⟩
    rcases le_total (x * (t.y2 - t.y1)) (t.x2 * (t.y2 - y) + t.x3 * (y - t.y1)) with hx | hx
    · left
      rcases eq_or_lt_of_le h12 with h12e | h12l
      · -- degenerate: x1 = x2, the point is forced onto the left edge
        have hx' : x * (t.y2 - t.y1) ≤ t.x1 * (t.y2 - y) + t.x3 * (y - t.y1) := by
          rw [h12e]; exact hx
        have hxeq : x * (t.y2 - t.y1) = t.x1 * (t.y2 - y) + t.x3 * (y - t.y1) :=
          le_antisymm hx' hlo
        refine ⟨(t.y2 - y)/(t.y2 - t.y1), 0, (y - t.y1)/(t.y2 - t.y1),
          div_nonneg (by linarith) hD.le, le_refl 0,
          div_nonneg (by linarith) hD.le, ?_, ?_, ?_⟩
        · field_simp
        · field_simp
          linear_combination hxeq
        · field_simp
          ring
      · -- non-degenerate: solve for the barycentric coordinates
        have hd : (0:ℚ) < (t.x2 - t.x1) * (t.y2 - t.y1) :=
          mul_pos (sub_pos.mpr h12l) hD
        have hdne : (t.x2 - t.x1) * (t.y2 - t.y1) ≠ 0 := ne_of_gt hd
        set b : ℚ :=
          (x * (t.y2 - t.y1) - (t.x1 * (t.y2 - y) + t.x3 * (y - t.y1)))
            / ((t.x2 - t.x1) * (t.y2 - t.y1)) with hb
        refine ⟨(t.y2 - y)/(t.y2 - t.y1) - b, b, (y - t.y1)/(t.y2 - t.y1),
          ?_, ?_, div_nonneg (by linarith) hD.le, ?_, ?_, ?_⟩
        · rw [sub_nonneg, hb, div_le_div_iff₀ hd hD]
          nlinarith [mul_nonneg (sub_nonneg.mpr hx) hD.le]
        · exact div_nonneg (by linarith) hd.le
        · rw [hb]
          field_simp
          ring
        · rw [hb]
          field_simp
          ring
        · rw [hb]
          field_simp
          ring
    · right
      rcases eq_or_lt_of_le h34 with h34e | h34l
      · -- degenerate: x3 = x4, the point is forced onto the right edge
        have hhi' : x * (t.y2 - t.y1) ≤ t.x2 * (t.y2 - y) + t.x3 * (y - t.y1) := by
          have := hhi
          rw [← h34e] at this
          exact this
        have hxeq : x * (t.y2 - t.y1) = t.x2 * (t.y2 - y) + t.x3 * (y - t.y1) :=
          le_antisymm hhi' hx
        refine ⟨(t.y2 - y)/(t.y2 - t.y1), (y - t.y1)/(t.y2 - t.y1), 0,
          div_nonneg (by linarith) hD.le,
          div_nonneg (by linarith) hD.le, le_refl 0, ?_, ?_, ?_⟩
        · field_simp
        · field_simp
          linear_combination hxeq
        · field_simp
          ring
      · have hd : (0:ℚ) < (t.x4 - t.x3) * (t.y2 - t.y1) :=
          mul_pos (sub_pos.mpr h34l) hD
        have hdne : (t.x4 - t.x3) * (t.y2 - t.y1) ≠ 0 := ne_of_gt hd
        set c : ℚ :=
          (x * (t.y2 - t.y1) - (t.x2 * (t.y2 - y) + t.x3 * (y - t.y1)))
            / ((t.x4 - t.x3) * (t.y2 - t.y1)) with hc
        refine ⟨(t.y2 - y)/(t.y2 - t.y1), (y - t.y1)/(t.y2 - t.y1) - c, c,
          div_nonneg (by linarith) hD.le, ?_, ?_, ?_, ?_, ?_⟩
        · rw [sub_nonneg, hc, div_le_div_iff₀ hd hD]
          nlinarith [mul_nonneg (sub_nonneg.mpr hhi) hD.le]
        · exact div_nonneg (by linarith) hd.le
        · rw [hc]
          field_simp
          ring
        · rw [hc]
          field_simp
          ring
        · rw [hc]
          field_simp
          ring
  · rintro (⟨a, b, c, ha, hb, hc, habc, hx, hy'⟩ | ⟨a, b, c, ha, hb, hc, habc, hx, hy'⟩)
    · -- a point of the first triangle lies in the trapezoid
      have hyy : y - t.y1 = c * (t.y2 - t.y1) := by
        linear_combination hy' + t.y1 * habc
      have hyy2 : t.y2 - y = (a + b) * (t.y2 - t.y1) := by
        linear_combination (-1 : ℚ) * hy' - t.y2 * habc
      refine ⟨?_, ?_, ?_, ?_⟩
      · linarith [mul_nonneg hc hD.le]
      · linarith [mul_nonneg (add_nonneg ha hb) hD.le]
      · rw [hx, hyy, hyy2]
        nlinarith [mul_nonneg (mul_nonneg hb (sub_nonneg.mpr h12)) hD.le]
      · rw [hx, hyy, hyy2]
        nlinarith [mul_nonneg (mul_nonneg ha (sub_nonneg.mpr h12)) hD.le,
          mul_nonneg (mul_nonneg hc (sub_nonneg.mpr h34)) hD.le]
    · -- a point of the second triangle lies in the trapezoid
      have hyy : y - t.y1 = (b + c) * (t.y2 - t.y1) := by
        linear_combination hy' + t.y1 * habc
      have hyy2 : t.y2 - y = a * (t.y2 - t.y1) := by
        linear_combination (-1 : ℚ) * hy' - t.y2 * habc
      refine ⟨?_, ?_, ?_, ?_⟩
      · linarith [mul_nonneg (add_nonneg hb hc) hD.le]
      · linarith [mul_nonneg ha hD.le]
      · rw [hx, hyy, hyy2]
        nlinarith [mul_nonneg (mul_nonneg ha (sub_nonneg.mpr h12)) hD.le,
          mul_nonneg (mul_nonneg hc (sub_nonneg.mpr h34)) hD.le]
      · rw [hx, hyy, hyy2]
        nlinarith [mul_nonneg (mul_nonneg hb (sub_nonneg.mpr h34)) hD.le]

/-- The union of the regions of a list of triangles. -/
def trianglesRegion : List Triangle → Set (ℚ × ℚ)
  | [] => ∅
  | tr :: rest => tr.region ∪ trianglesRegion rest

/-- The union of the regions of a list of trapezoids. -/
def trapezoidsRegion : List Trapezoid → Set (ℚ × ℚ)
  | [] => ∅
  | t :: rest => t.region ∪ trapezoidsRegion rest

/-- The triangle-region union distributes over list append. -/
theorem trianglesRegion_append (l1 l2 : List Triangle) :
    trianglesRegion (l1 ++ l2) = trianglesRegion l1 ∪ trianglesRegion l2 := by
  induction l1 with
  | nil => simp [trianglesRegion]
  | cons tr rest ih =>
    simp [trianglesRegion, ih, Set.union_assoc]

/-- Modelled from the spec: a JUCE `Path` under an `AffineTransform`, as
far as the triangulation is concerned - the fill region of the
transformed path, and the trapezoidal decomposition of it that the
`TrapezoidedPath` helper (absent from the repository) computes. -/
structure JucePath where
  fillRegion : AffineTransform → Set (ℚ × ℚ)
  trapezoids : AffineTransform → List Trapezoid

/-- Modelled from the spec: the contract of the missing `TrapezoidedPath`
helper - the trapezoids it produces for the transformed path are
well-formed and together cover exactly the transformed path's fill
region. -/
def JucePath.trapezoidationOK (path : JucePath) (transform : AffineTransform) : Prop :=
  (∀ t ∈ path.trapezoids transform, t.WF) ∧
  trapezoidsRegion (path.trapezoids transform) = path.fillRegion transform

/-- Fold a list of trapezoids into the arena, one `addTrapezoid` at a
time. -/
def TriangulatedPath.ofTrapezoids (ts : List Trapezoid) : TriangulatedPath :=
  ts.foldl TriangulatedPath.addTrapezoid TriangulatedPath.empty

/-- Modelled from the spec: the `TriangulatedPath` constructor - it
trapezoids the transformed path through the (absent) `TrapezoidedPath`
helper and stores each trapezoid through `addTrapezoid`. -/
def TriangulatedPath.construct (path : JucePath) (transform : AffineTransform) :
    TriangulatedPath :=
  TriangulatedPath.ofTrapezoids (path.trapezoids transform)

/-- Folding trapezoids into the arena stores exactly their triangle
pairs, in order. -/
theorem ofTrapezoids_allTriangles (ts : List Trapezoid) :
    (TriangulatedPath.ofTrapezoids ts).allTriangles
      = ts.flatMap fun t => [t.tri1, t.tri2] := by
  have key : ∀ (l : List Trapezoid) (s : TriangulatedPath),
      (l.foldl TriangulatedPath.addTrapezoid s).allTriangles
        = s.allTriangles ++ l.flatMap fun t => [t.tri1, t.tri2] := by
    intro l
    induction l with
    | nil => intro s; simp
    | cons t rest ih =>
      intro s
      simp only [List.foldl_cons, ih, addTrapezoid_allTriangles,
        List.flatMap_cons, List.append_assoc]
  have h0 : TriangulatedPath.empty.allTriangles = [] := rfl
  rw [TriangulatedPath.ofTrapezoids, key, h0, List.nil_append]

/-- The triangles stored for a list of well-formed trapezoids cover
exactly the union of the trapezoids. -/
theorem ofTrapezoids_region (ts : List Trapezoid) (h : ∀ t ∈ ts, t.WF) :
    trianglesRegion (TriangulatedPath.ofTrapezoids ts).allTriangles
      = trapezoidsRegion ts := by
  rw [ofTrapezoids_allTriangles]
  induction ts with
  | nil => simp [trianglesRegion, trapezoidsRegion]
  | cons t rest ih =>
    have ht : t.WF := h t (List.mem_cons_self t rest)
    have hrest : ∀ u ∈ rest, u.WF := fun u hu => h u (List.mem_cons_of_mem t hu)
    simp only [List.flatMap_cons]
    rw [show ([t.tri1, t.tri2] : List Triangle) ++ rest.flatMap (fun u => [u.tri1, u.tri2])
        = t.tri1 :: t.tri2 :: rest.flatMap fun u => [u.tri1, u.tri2] from rfl]
    show t.tri1.region ∪ (t.tri2.region ∪ _) = _
    rw [← Set.union_assoc, ← trapezoid_region_eq_union t ht]
    show t.region ∪ _ = t.region ∪ trapezoidsRegion rest
    rw [ih hrest]

/-! ## The claims -/

/-- C1: every constructed OpenGLTextureFromImage owns exactly one of the
two GPU resource kinds - a texture or a framebuffer, never both - and the
choice depends only on whether the source image is GPU-backed: a
framebuffer-backed image's framebuffer is used directly, otherwise a
temporary texture is created with the image copied into it. -/
theorem claim_C1_textureFromImage_ownership (image : Image) (freshID : Nat) :
    (((OpenGLTextureFromImage.make image freshID).texture.isSome ∧
        (OpenGLTextureFromImage.make image freshID).frameBuffer = none) ∨
     ((OpenGLTextureFromImage.make image freshID).texture = none ∧
        (OpenGLTextureFromImage.make image freshID).frameBuffer.isSome))
    ∧ ((OpenGLTextureFromImage.make image freshID).frameBuffer.isSome
        ↔ image.glFrameBuffer.isSome)
    ∧ (∀ fbID, image.glFrameBuffer = some fbID →
        (OpenGLTextureFromImage.make image freshID).frameBuffer = some ⟨fbID, image⟩ ∧
        (OpenGLTextureFromImage.make image freshID).textureID = fbID)
    ∧ (image.glFrameBuffer = none →
        (OpenGLTextureFromImage.make image freshID).texture = some ⟨freshID, image⟩ ∧
        (OpenGLTextureFromImage.make image freshID).frameBuffer = none) := by
  cases himg : image.glFrameBuffer with
  | none =>
    refine ⟨Or.inl ⟨?_, ?_⟩, ?_, ?_, ?_⟩ <;>
      simp [OpenGLTextureFromImage.make, himg]
  | some fbID =>
    refine ⟨Or.inr ⟨?_, ?_⟩, ?_, ?_, ?_⟩ <;>
      simp [OpenGLTextureFromImage.make, himg]

/-- Witness for C1 at a framebuffer-backed image and at a plain image. -/
theorem claim_C1_witness :
    (OpenGLTextureFromImage.make ⟨some 7, 4, 4⟩ 99).frameBuffer
        = some ⟨7, ⟨some 7, 4, 4⟩⟩ ∧
    (OpenGLTextureFromImage.make ⟨none, 4, 4⟩ 99).texture
        = some ⟨99, ⟨none, 4, 4⟩⟩ :=
  ⟨((claim_C1_textureFromImage_ownership ⟨some 7, 4, 4⟩ 99).2.2.1 7 rfl).1,
   ((claim_C1_textureFromImage_ownership ⟨none, 4, 4⟩ 99).2.2.2 rfl).1⟩

/-- C2: in every reachable state of a TriangulatedPath, the current-block
cursor points at an element of the owned block array, or at no block
before any block has been started; no operation leaves it dangling. -/
theorem claim_C2_cursor_invariant (ops : List PathOp) :
    (TriangulatedPath.runOps ops).cursorOK = true :=
  runOps_cursorOK ops

/-- C3: the TriangulatedPath constructor decomposes the transformed path
into triangles whose union is exactly the fill region of the path under
the transform, and every pass of draw renders exactly those triangles. -/
theorem claim_C3_triangulation_exact (path : JucePath) (transform : AffineTransform)
    (h : path.trapezoidationOK transform) :
    trianglesRegion (TriangulatedPath.construct path transform).allTriangles
      = path.fillRegion transform
    ∧ ∀ n p, p ∈ (TriangulatedPath.construct path transform).draw n →
        p.triangles = (TriangulatedPath.construct path transform).allTriangles := by
  obtain ⟨hWF, hcov⟩ := h
  constructor
  · rw [TriangulatedPath.construct, ofTrapezoids_region _ hWF, hcov]
  · intro n p hp
    simp only [TriangulatedPath.draw, List.mem_flatMap, List.mem_map,
      List.mem_range] at hp
    obtain ⟨i, hi, j, hj, rfl⟩ := hp
    rfl

/-- Witness for C3 at a single unit trapezoid under the identity
transform. -/
theorem claim_C3_witness :
    trianglesRegion
      (TriangulatedPath.construct
        ⟨fun _ => trapezoidsRegion [⟨0, 1, 0, 1, 0, 1⟩],
         fun _ => [⟨0, 1, 0, 1, 0, 1⟩]⟩
        ⟨1, 0, 0, 0, 1, 0⟩).allTriangles
      = trapezoidsRegion [⟨0, 1, 0, 1, 0, 1⟩] :=
  (claim_C3_triangulation_exact
    ⟨fun _ => trapezoidsRegion [⟨0, 1, 0, 1, 0, 1⟩],
     fun _ => [⟨0, 1, 0, 1, 0, 1⟩]⟩
    ⟨1, 0, 0, 0, 1, 0⟩
    ⟨by intro t ht
        simp at ht
        subst ht
        exact ⟨by norm_num, by norm_num, by norm_num⟩,
     rfl⟩).1

/-- C4: setPerspective applies exactly the projection transformation of
gluPerspective at the same arguments, and every other listed helper is
observationally the direct sequence of OpenGL calls it names, with no
further algorithmic content. -/
theorem claim_C4_thin_passthrough :
    (∀ fovy aspect zNear zFar : ℝ, zNear ≠ 0 →
      Real.tan (fovy * Real.pi / 360) ≠ 0 → aspect ≠ 0 → zFar ≠ zNear →
      OpenGLHelpers.setPerspectiveMatrix fovy aspect zNear zFar
        = gluPerspectiveMatrix fovy aspect zNear zFar)
    ∧ (∀ colour : Colour, OpenGLHelpers.clear colour =
        [GLCall.glClearColor colour.r colour.g colour.b colour.a,
         GLCall.glClear (GL_COLOR_BUFFER_BIT ||| GL_DEPTH_BUFFER_BIT)])
    ∧ (∀ colour : Colour, OpenGLHelpers.setColour colour =
        [GLCall.glColor4f colour.r colour.g colour.b colour.a])
    ∧ (∀ w h : Int, OpenGLHelpers.prepareFor2D w h =
        [GLCall.glViewport 0 0 w h, GLCall.glMatrixMode GL_PROJECTION,
         GLCall.glLoadIdentity, GLCall.glOrtho 0 (w : ℚ) 0 (h : ℚ) 0 1,
         GLCall.glMatrixMode GL_MODELVIEW])
    ∧ (∀ t : AffineTransform, OpenGLHelpers.applyTransform t =
        [GLCall.glMultMatrix t])
    ∧ (∀ clip : RectangleInt, OpenGLHelpers.enableScissorTest clip =
        [GLCall.glEnable GL_SCISSOR_TEST,
         GLCall.glScissor clip.x clip.y clip.w clip.h])
    ∧ (∀ x1 y1 x2 y2 x3 y3 x4 y4 : ℚ, ∀ colour : Colour,
        OpenGLHelpers.drawQuad2D x1 y1 x2 y2 x3 y3 x4 y4 colour =
        [GLCall.glColor4f colour.r colour.g colour.b colour.a,
         GLCall.glBegin GL_QUADS,
         GLCall.glVertex2f x1 y1, GLCall.glVertex2f x2 y2,
         GLCall.glVertex2f x3 y3, GLCall.glVertex2f x4 y4, GLCall.glEnd])
    ∧ (∀ x1 y1 z1 x2 y2 z2 x3 y3 z3 x4 y4 z4 : ℚ, ∀ colour : Colour,
        OpenGLHelpers.drawQuad3D x1 y1 z1 x2 y2 z2 x3 y3 z3 x4 y4 z4 colour =
        [GLCall.glColor4f colour.r colour.g colour.b colour.a,
         GLCall.glBegin GL_QUADS,
         GLCall.glVertex3f x1 y1 z1, GLCall.glVertex3f x2 y2 z2,
         GLCall.glVertex3f x3 y3 z3, GLCall.glVertex3f x4 y4 z4, GLCall.glEnd])
    ∧ (∀ v tc : List (ℚ × ℚ), ∀ n : Int,
        OpenGLHelpers.drawTriangleStrip v tc n =
        [GLCall.glDrawTriangleStripArrays n])
    ∧ (∀ v tc : List (ℚ × ℚ), ∀ n : Int, ∀ id : Nat,
        OpenGLHelpers.drawTriangleStripTextured v tc n id =
        [GLCall.glBindTexture GL_TEXTURE_2D id,
         GLCall.glDrawTriangleStripArrays n])
    ∧ (∀ id : Nat, ∀ x y w h : Int, OpenGLHelpers.drawTextureQuad id x y w h =
        [GLCall.glBindTexture GL_TEXTURE_2D id, GLCall.glBegin GL_QUADS,
         GLCall.glVertex2f (x : ℚ) (y : ℚ),
         GLCall.glVertex2f ((x : ℚ) + (w : ℚ)) (y : ℚ),
         GLCall.glVertex2f ((x : ℚ) + (w : ℚ)) ((y : ℚ) + (h : ℚ)),
         GLCall.glVertex2f (x : ℚ) ((y : ℚ) + (h : ℚ)), GLCall.glEnd])
    ∧ (∀ rect : RectangleInt, ∀ id : Nat, ∀ alpha : ℚ,
        OpenGLHelpers.fillRectWithTexture rect id alpha =
        GLCall.glColor4f 1 1 1 alpha ::
          OpenGLHelpers.drawTextureQuad id rect.x rect.y rect.w rect.h)
    ∧ (∀ rect : RectangleInt, OpenGLHelpers.fillRect rect =
        [GLCall.glBegin GL_QUADS,
         GLCall.glVertex2f (rect.x : ℚ) (rect.y : ℚ),
         GLCall.glVertex2f ((rect.x : ℚ) + (rect.w : ℚ)) (rect.y : ℚ),
         GLCall.glVertex2f ((rect.x : ℚ) + (rect.w : ℚ)) ((rect.y : ℚ) + (rect.h : ℚ)),
         GLCall.glVertex2f (rect.x : ℚ) ((rect.y : ℚ) + (rect.h : ℚ)), GLCall.glEnd])
    ∧ (∀ rect : RectangleInt, ∀ colour : Colour,
        OpenGLHelpers.fillRectWithColour rect colour =
        OpenGLHelpers.setColour colour ++ OpenGLHelpers.fillRect rect)
    ∧ (∀ et : EdgeTable, OpenGLHelpers.fillEdgeTable et =
        et.spans.map fun s => GLCall.glDrawSpan s.1 s.2.1 s.2.2.1 s.2.2.2)
    ∧ (∀ c : GLContext, ∀ name : String,
        OpenGLHelpers.isExtensionSupported c name = c.extensions.contains name)
    ∧ (∀ c : GLContext, ∀ name : String,
        OpenGLHelpers.getExtensionFunction c name = c.extensionFunctions name)
    ∧ (∀ fovy aspect zNear zFar : ℝ,
        OpenGLHelpers.setPerspective fovy aspect zNear zFar =
        [GLCall.glMatrixMode GL_PROJECTION, GLCall.glLoadIdentity,
         GLCall.glFrustum (-(zNear * Real.tan (fovy * Real.pi / 360)) * aspect)
           (zNear * Real.tan (fovy * Real.pi / 360) * aspect)
           (-(zNear * Real.tan (fovy * Real.pi / 360)))
           (zNear * Real.tan (fovy * Real.pi / 360)) zNear zFar,
         GLCall.glMatrixMode GL_MODELVIEW]) :=
  ⟨setPerspectiveMatrix_eq_gluPerspectiveMatrix,
   fun _ => rfl, fun _ => rfl, fun _ _ => rfl, fun _ => rfl, fun _ => rfl,
   fun _ _ _ _ _ _ _ _ _ => rfl, fun _ _ _ _ _ _ _ _ _ _ _ _ _ => rfl,
   fun _ _ _ => rfl, fun _ _ _ _ => rfl, fun _ _ _ _ _ => rfl,
   fun _ _ _ => rfl, fun _ => rfl, fun _ _ => rfl, fun _ => rfl,
   fun _ _ => rfl, fun _ _ => rfl, fun _ _ _ _ => rfl⟩

/-- Witness for C4: the projection equality at fovy 90, aspect 1,
zNear 1, zFar 2, where the tangent is 1. -/
theorem claim_C4_witness :
    OpenGLHelpers.setPerspectiveMatrix 90 1 1 2 = gluPerspectiveMatrix 90 1 1 2 := by
  have harg : (90 : ℝ) * Real.pi / 360 = Real.pi / 4 := by ring
  have ht : Real.tan ((90 : ℝ) * Real.pi / 360) ≠ 0 := by
    rw [harg, Real.tan_pi_div_four]
    norm_num
  exact claim_C4_thin_passthrough.1 90 1 1 2 (by norm_num) ht (by norm_num) (by norm_num)

/-- C5: after resetErrorState the error flag of the current context
reads no-error, and no helper operation returns an OpenGL error code to
its caller as a typed failure result. -/
theorem claim_C5_error_policy (c : GLContext) (call : HelperCall) :
    (OpenGLHelpers.resetErrorState c).errorFlag = GL_NO_ERROR
    ∧ ∀ e, (runHelper call c).2.shape ≠ ResultShape.glErrorCode e := by
  refine ⟨rfl, ?_⟩
  intro e
  cases call <;> simp [runHelper, HelperResult.shape]

/-- Witness for C5 at a context whose error flag reads GL_INVALID_VALUE
(1281). -/
theorem claim_C5_witness :
    (OpenGLHelpers.resetErrorState ⟨1281, [], fun _ => none, []⟩).errorFlag = GL_NO_ERROR
    ∧ (runHelper HelperCall.resetErrorState ⟨1281, [], fun _ => none, []⟩).2.shape
        ≠ ResultShape.glErrorCode 1281 :=
  ⟨(claim_C5_error_policy ⟨1281, [], fun _ => none, []⟩ HelperCall.resetErrorState).1,
   (claim_C5_error_policy ⟨1281, [], fun _ => none, []⟩ HelperCall.resetErrorState).2 1281⟩

/-- C6: optimiseStorage reduces the footprint to the number of stored
triangles - the minimum any well-formed storage of the same triangles
can have - and for every oversampling level draw produces the same
output after it as before it. -/
theorem claim_C6_optimiseStorage (s : TriangulatedPath) :
    s.optimiseStorage.footprint = s.storedCount
    ∧ (∀ n, s.optimiseStorage.draw n = s.draw n)
    ∧ ∀ s' : TriangulatedPath, s'.allTriangles = s.allTriangles → s'.storageWF →
        s.optimiseStorage.footprint ≤ s'.footprint := by
  refine ⟨optimiseStorage_footprint s, ?_, ?_⟩
  · intro n
    exact draw_congr _ _ (optimiseStorage_allTriangles s) n
  · intro s' hsame hwf
    rw [optimiseStorage_footprint]
    have hcount : s.storedCount = s'.storedCount := by
      rw [TriangulatedPath.storedCount, TriangulatedPath.storedCount, hsame]
    rw [hcount]
    exact storedCount_le_footprint s' hwf

/-- Witness for C6 at an arena holding one triangle in a block of 256
slots. -/
theorem claim_C6_witness :
    (TriangulatedPath.empty.addTriangle ⟨0, 0, 1, 0, 0, 1⟩).optimiseStorage.footprint
      ≤ (TriangulatedPath.empty.addTriangle ⟨0, 0, 1, 0, 0, 1⟩).footprint :=
  (claim_C6_optimiseStorage (TriangulatedPath.empty.addTriangle ⟨0, 0, 1, 0, 0, 1⟩)).2.2
    (TriangulatedPath.empty.addTriangle ⟨0, 0, 1, 0, 0, 1⟩) rfl
    (by
      intro b hb
      have hbeq : b = ⟨[⟨0, 0, 1, 0, 0, 1⟩], trianglesPerBlock⟩ := by
        simpa [TriangulatedPath.empty, TriangulatedPath.addTriangle,
          pushTriangle] using hb
      subst hbeq
      decide)

/-- C7: isContextActive returns true exactly when the calling thread has
an active OpenGL context, and its result depends only on the calling
thread's slot of the thread-to-context association. -/
theorem claim_C7_isContextActive
    (activeContexts activeContexts' : Nat → Option GLContext) (thread : Nat) :
    (OpenGLHelpers.isContextActive (OpenGLHelpers.currentContextOf activeContexts thread)
        = true ↔ (activeContexts thread).isSome)
    ∧ (activeContexts thread = activeContexts' thread →
        OpenGLHelpers.isContextActive (OpenGLHelpers.currentContextOf activeContexts thread)
          = OpenGLHelpers.isContextActive
              (OpenGLHelpers.currentContextOf activeContexts' thread)) := by
  constructor
  · simp [OpenGLHelpers.isContextActive, OpenGLHelpers.currentContextOf]
  · intro h
    simp [OpenGLHelpers.isContextActive, OpenGLHelpers.currentContextOf, h]

/-- Witness for C7 at a thread with no active context. -/
theorem claim_C7_witness :
    OpenGLHelpers.isContextActive
        (OpenGLHelpers.currentContextOf (fun _ => none) 0)
      = OpenGLHelpers.isContextActive
        (OpenGLHelpers.currentContextOf (fun _ => none) 0) :=
  (claim_C7_isContextActive (fun _ => none) (fun _ => none) 0).2 rfl

/-- C8: the helpers are stateless - the whole effect of an invocation is
a function of the call and the current context alone, so two calls of
the same operation with equal arguments and equal context state have the
same observable effect. -/
theorem claim_C8_stateless_determinism (call call' : HelperCall) (c c' : GLContext)
    (hcall : call = call') (hctx : c = c') :
    runHelper call c = runHelper call' c' := by
  rw [hcall, hctx]

/-- Witness for C8 at two textually identical clear invocations. -/
theorem claim_C8_witness :
    runHelper (HelperCall.clear ⟨1, 0, 0, 1⟩) ⟨0, [], fun _ => none, []⟩
      = runHelper (HelperCall.clear ⟨1, 0, 0, 1⟩) ⟨0, [], fun _ => none, []⟩ :=
  claim_C8_stateless_determinism _ _ _ _ rfl rfl

/-- C9: draw at oversampling level n performs n * n jittered passes -
the level is the square root of the number of passes - and, being
const, hands the TriangulatedPath back unmodified. -/
theorem claim_C9_draw_oversampling (s : TriangulatedPath) (n : Nat) :
    (s.drawMethod n).2 = s ∧ (s.drawMethod n).1.length = n * n :=
  ⟨rfl, draw_passCount s n⟩

/-- C10: the lifecycle of the two non-copyable classes offers no copy
operation, and in every reachable registry state each triangle-block
arena and each GPU resource is owned by exactly one live object. -/
theorem claim_C10_unique_ownership (ops : List LifecycleOp) :
    (Registry.runLifecycle ops).uniqueOwnership :=
  (runLifecycle_invariant ops).1
